import Mathlib

/-!
Verification of the iotgate message-routing and device-plugin framework.

The definitions embed the Python sources of the repository:
- plugins/iotgate_iotgate.py : the router (MQTT message callback, dispatch
  over the device registry) and the gateway device itself (reconnect period,
  command processing).
- plugins/iotgate_fan.py : the cooling-fan actuator device (hysteresis
  control, threshold setters, command and data handlers).

Numeric values (Python floats) are embedded as rationals; MQTT payload
strings that spell a float literal are embedded as Val.num, other strings
as Val.str. Members of the external gbj_sw library (base class
modIot.Plugin, enum token values) are not part of the repository sources;
where a definition depends on them it is modelled from the spec and marked
as such in its doc string.
-/

namespace IotGate

/-- Modelled from the spec: the fixed single-character topic separator
(modIot.Separator.TOPIC of the external gbj_sw library). -/
def sepTOPIC : Char := '/'

/-- Modelled from the spec: token of the COMMAND category
(modIot.Category.COMMAND.value of the external gbj_sw library). -/
def catCOMMAND : String := "cmd"

/-- Modelled from the spec: token of the STATUS category
(modIot.Category.STATUS.value of the external gbj_sw library). -/
def catSTATUS : String := "status"

/-- Modelled from the spec: token of the DATA category
(modIot.Category.DATA.value of the external gbj_sw library). -/
def catDATA : String := "data"

/-- Splits a character list at the first occurrence of the separator,
returning the part before and the part after, or none when the separator
does not occur. -/
def splitFirst (sep : Char) : List Char → Option (List Char × List Char)
  | [] => none
  | c :: cs =>
    if c = sep then some ([], cs)
    else
      match splitFirst sep cs with
      | none => none
      | some (pre, post) => some (c :: pre, post)

/-- Embeds the Python call topic.split(sep, maxsplit) for a one-character
separator: at most maxsplit splits are performed and the remainder of the
string is kept whole as the last element. -/
def pySplitN (sep : Char) : Nat → List Char → List (List Char)
  | 0, cs => [cs]
  | n + 1, cs =>
    match splitFirst sep cs with
    | none => [cs]
    | some (pre, post) => pre :: pySplitN sep n post

/-- Number of occurrences of the separator character; the topic has
countSep + 1 separator-delimited segments. -/
def countSep (sep : Char) : List Char → Nat
  | [] => 0
  | c :: cs => (if c = sep then 1 else 0) + countSep sep cs

/-- A registered device as the router sees it: the registry key and the
device identifier coincide (modelled from the spec: did is assigned once at
registration and used as the map key in the registry; the base-class id
property equals it). -/
structure RDevice where
  did : String
deriving DecidableEq, Repr

/-- Which handler of a device the router invoked. -/
inductive Handler
  | ownCommand
  | status
  | data
deriving DecidableEq, Repr

/-- One handler invocation performed by the router during dispatch of one
inbound message: the receiving device, the handler, the three payload
arguments, and the device identifier of the object passed as the fourth
(source) argument, none for command handling. -/
structure Invocation where
  target : String
  handler : Handler
  value : String
  parameter : Option String
  measure : Option String
  source : Option String
deriving DecidableEq, Repr

/-- Embeds the routing block of device._callback_on_message
(plugins/iotgate_iotgate.py lines 284 to 297): a COMMAND goes to the
registered device with matching identifier only; STATUS and DATA fan out to
every registered device except the one whose identifier equals the decoded
did, and the fourth argument passed to the handler is the loop device
itself. The returned list records the invocations in registry order. -/
def dispatch (reg : List RDevice) (did cat par meas : Option String)
    (payload : String) : List Invocation :=
  if cat = some catCOMMAND then
    match reg.find? (fun d => did == some d.did) with
    | some d => [⟨d.did, Handler.ownCommand, payload, par, meas, none⟩]
    | none => []
  else
    reg.filterMap (fun d =>
      if did = some d.did then none
      else if cat = some catSTATUS then
        some ⟨d.did, Handler.status, payload, par, meas, some d.did⟩
      else if cat = some catDATA then
        some ⟨d.did, Handler.data, payload, par, meas, some d.did⟩
      else none)

/-- Embeds device._callback_on_message (plugins/iotgate_iotgate.py lines
269 to 297): an absent or empty payload is dropped; the topic is split with
maxsplit 4; more than 4 parts drop the message; otherwise missing trailing
segments become none and the message is dispatched. -/
def callbackOnMessage (reg : List RDevice) (topic : String)
    (payload : Option String) : List Invocation :=
  match payload with
  | none => []
  | some p =>
    if p = "" then []
    else
      let parts := pySplitN sepTOPIC 4 topic.toList
      if parts.length > 4 then []
      else
        dispatch reg ((parts.get? 0).map List.asString)
          ((parts.get? 1).map List.asString)
          ((parts.get? 2).map List.asString)
          ((parts.get? 3).map List.asString) p

/-- Embeds the STATUS and DATA fan-out loop of device._callback_on_message
(plugins/iotgate_iotgate.py lines 290 to 297) together with its exception
behaviour: run d is none when the handler of d returns normally and some e
when it raises e. The loop body is not wrapped in any try block, so the
first exception aborts the loop and propagates; the result is the list of
device identifiers whose handler was invoked, and the propagated exception
if any. -/
def fanoutExec (run : RDevice → Option String) (did : Option String) :
    List RDevice → List String × Option String
  | [] => ([], none)
  | d :: rest =>
    if did = some d.did then fanoutExec run did rest
    else
      match run d with
      | some e => ([d.did], some e)
      | none =>
        let t := fanoutExec run did rest
        (d.did :: t.1, t.2)

/-! ### Lemmas about topic splitting -/

theorem splitFirst_none {sep : Char} {cs : List Char}
    (h : splitFirst sep cs = none) : countSep sep cs = 0 := by
  induction cs with
  | nil => rfl
  | cons c cs ih =>
    unfold splitFirst at h
    by_cases hc : c = sep
    · simp [hc] at h
    · simp [hc] at h
      cases hsf : splitFirst sep cs with
      | none => simp [countSep, hc, ih hsf]
      | some pr => rw [hsf] at h; exact absurd h (by simp)

theorem splitFirst_some {sep : Char} {cs pre post : List Char}
    (h : splitFirst sep cs = some (pre, post)) :
    countSep sep cs = countSep sep post + 1 := by
  induction cs generalizing pre with
  | nil => simp [splitFirst] at h
  | cons c cs ih =>
    unfold splitFirst at h
    by_cases hc : c = sep
    · simp [hc] at h
      simp [countSep, hc, ← h.2, Nat.add_comm]
    · simp [hc] at h
      cases hsf : splitFirst sep cs with
      | none => rw [hsf] at h; exact absurd h (by simp)
      | some pr =>
        rw [hsf] at h
        cases pr with
        | mk a b =>
          simp at h
          have hb : splitFirst sep cs = some (a, post) := by rw [hsf, h.2]
          simp [countSep, hc, ih hb]

theorem pySplitN_length (sep : Char) (n : Nat) (cs : List Char) :
    (pySplitN sep n cs).length = min (countSep sep cs) n + 1 := by
  induction n generalizing cs with
  | zero => simp [pySplitN]
  | succ n ih =>
    unfold pySplitN
    cases hsf : splitFirst sep cs with
    | none => simp [splitFirst_none hsf]
    | some pr =>
      cases pr with
      | mk pre post =>
        simp only [List.length_cons, ih post, splitFirst_some hsf]
        omega

/-! ### Routing claims -/

/-- C1: the claim states that STATUS and DATA handlers receive the source
device (the registry entry looked up by the decoded did) as the fourth
argument. The code instead passes the loop variable, that is the receiving
device itself: for the registry holding server and sfan, a DATA message
from server invokes the handler of sfan with sfan itself as the source
argument, not server. -/
theorem c1_source_argument_is_receiver :
    callbackOnMessage [⟨"server"⟩, ⟨"sfan"⟩] "server/data/temp/percentage"
        (some "72.5") =
      [⟨"sfan", Handler.data, "72.5", some "temp", some "percentage",
        some "sfan"⟩] ∧
    (callbackOnMessage [⟨"server"⟩, ⟨"sfan"⟩] "server/data/temp/percentage"
        (some "72.5")).map Invocation.source ≠ [some "server"] := by
  constructor
  · rfl
  · decide

/-- C2: a STATUS or DATA message whose decoded source identifier equals the
identifier of a registered device Y never invokes a handler on Y: every
invocation produced by the dispatch targets a device with a different
identifier. -/
theorem c2_broadcast_exclusion (reg : List RDevice) (Y : RDevice)
    (did : String) (cat par meas : Option String) (payload : String)
    (_hY : Y ∈ reg) (hcat : cat = some catSTATUS ∨ cat = some catDATA)
    (hdid : did = Y.did) :
    ∀ inv ∈ dispatch reg (some did) cat par meas payload,
      inv.target ≠ Y.did := by
  intro inv hinv
  have hcmd : ¬(cat = some catCOMMAND) := by
    rcases hcat with h | h <;> rw [h] <;> decide
  unfold dispatch at hinv
  rw [if_neg hcmd] at hinv
  rw [List.mem_filterMap] at hinv
  obtain ⟨d, hd, heq⟩ := hinv
  by_cases hskip : (some did : Option String) = some d.did
  · rw [if_pos hskip] at heq
    exact absurd heq (by simp)
  · rw [if_neg hskip] at heq
    have htar : inv.target = d.did := by
      rcases hcat with h | h
      · rw [h, if_pos rfl] at heq
        cases heq
        rfl
      · rw [h, if_neg (by decide), if_pos rfl] at heq
        cases heq
        rfl
    rw [htar, ← hdid]
    intro hcon
    exact hskip (by rw [hcon])

/-- C2 witness: in the registry holding server and sfan, a STATUS message
with source identifier sfan never targets sfan. -/
theorem c2_broadcast_exclusion_witness :
    "sfan" ∉ (dispatch [⟨"server"⟩, ⟨"sfan"⟩] (some "sfan")
      (some catSTATUS) none none "x").map Invocation.target := by
  intro hmem
  rw [List.mem_map] at hmem
  obtain ⟨inv, hinv, htar⟩ := hmem
  exact c2_broadcast_exclusion [⟨"server"⟩, ⟨"sfan"⟩] ⟨"sfan"⟩ "sfan"
    (some catSTATUS) none none "x" (by decide) (Or.inl rfl) rfl inv hinv htar

/-- C3: a COMMAND message whose decoded did matches a registered device
produces exactly one invocation, of that device with the payload, parameter
and measure, and no invocation on any other device; a COMMAND whose did
matches no registered device produces no invocation at all. -/
theorem c3_command_addressing (reg : List RDevice) (did payload : String)
    (par meas : Option String) :
    ((∃ X, X ∈ reg ∧ X.did = did) →
      dispatch reg (some did) (some catCOMMAND) par meas payload =
        [⟨did, Handler.ownCommand, payload, par, meas, none⟩]) ∧
    ((∀ X ∈ reg, X.did ≠ did) →
      dispatch reg (some did) (some catCOMMAND) par meas payload = []) := by
  constructor
  · intro hex
    unfold dispatch
    rw [if_pos rfl]
    cases hfind : reg.find? (fun d => some did == some d.did) with
    | none =>
      obtain ⟨X, hX, hXdid⟩ := hex
      have hnone := List.find?_eq_none.mp hfind X hX
      simp [hXdid] at hnone
    | some d =>
      have hpred := List.find?_some hfind
      simp at hpred
      rw [hpred]
  · intro hall
    unfold dispatch
    rw [if_pos rfl]
    cases hfind : reg.find? (fun d => some did == some d.did) with
    | none => rfl
    | some d =>
      have hmem := List.mem_of_find?_eq_some hfind
      have hpred := List.find?_some hfind
      simp at hpred
      exact absurd hpred.symm (hall d hmem)

/-- C3 witness: with server and sfan registered, a COMMAND for sfan invokes
exactly the own-command handler of sfan once, and a COMMAND for an
unregistered identifier invokes nothing. -/
theorem c3_command_addressing_witness :
    dispatch [⟨"server"⟩, ⟨"sfan"⟩] (some "sfan") (some catCOMMAND)
        (some "percon") (some "value") "85" =
      [⟨"sfan", Handler.ownCommand, "85", some "percon", some "value",
        none⟩] ∧
    dispatch [⟨"server"⟩, ⟨"sfan"⟩] (some "nodev") (some catCOMMAND)
        none none "reset" = [] := by
  constructor
  · exact (c3_command_addressing [⟨"server"⟩, ⟨"sfan"⟩] "sfan" "85"
      (some "percon") (some "value")).1 ⟨⟨"sfan"⟩, by decide, rfl⟩
  · exact (c3_command_addressing [⟨"server"⟩, ⟨"sfan"⟩] "nodev" "reset"
      none none).2 (by decide)

/-- C4 counterexample: the claim states that an exception in one handler
does not prevent the remaining handlers from running. In the code the
fan-out loop has no exception handling: with devices a and b registered and
the handler of a raising, only a is invoked, b is never reached, and the
exception propagates out of the callback. -/
theorem c4_exception_counterexample :
    fanoutExec (fun d => if d.did = "a" then some "boom" else none)
        (some "src") [⟨"a"⟩, ⟨"b"⟩] = (["a"], some "boom") ∧
    "b" ∉ (fanoutExec (fun d => if d.did = "a" then some "boom" else none)
        (some "src") [⟨"a"⟩, ⟨"b"⟩]).1 := by
  decide

/-- C4 amended: an exception raised by the first non-skipped handler during
the STATUS or DATA fan-out aborts dispatch. The remaining registered
devices are not invoked and the exception propagates out of the message
callback uncaught. -/
theorem c4_amended_exception_aborts_dispatch (run : RDevice → Option String)
    (did : Option String) (d : RDevice) (rest : List RDevice) (e : String)
    (hskip : did ≠ some d.did) (hraise : run d = some e) :
    fanoutExec run did (d :: rest) = ([d.did], some e) := by
  unfold fanoutExec
  rw [if_neg hskip, hraise]

/-- C4 amended witness: two devices, first handler raises, dispatch stops
there with the error propagated. -/
theorem c4_amended_witness :
    fanoutExec (fun d => if d.did = "a" then some "err" else none)
        (some "src") [⟨"a"⟩, ⟨"b"⟩] = (["a"], some "err") :=
  c4_amended_exception_aborts_dispatch
    (fun d => if d.did = "a" then some "err" else none) (some "src")
    ⟨"a"⟩ [⟨"b"⟩] "err" (by decide) (by decide)

/-- C5: a message whose topic has more than 4 separator-delimited segments
(at least 4 separators) is dropped: no device handler is invoked, the topic
is not truncated and routed. -/
theorem c5_overlong_topic_rejected (reg : List RDevice) (topic : String)
    (p : String) (hp : ¬(p = ""))
    (hseg : 4 ≤ countSep sepTOPIC topic.toList) :
    callbackOnMessage reg topic (some p) = [] := by
  have hseg2 : 4 ≤ countSep sepTOPIC topic.data := hseg
  have hlen : (pySplitN sepTOPIC 4 topic.data).length > 4 := by
    rw [pySplitN_length]
    omega
  simp [callbackOnMessage, hp]
  intro hcon
  omega

/-- C5 witness: a five-segment topic is dropped entirely. -/
theorem c5_overlong_topic_witness :
    callbackOnMessage [⟨"gate"⟩] "a/b/c/d/e" (some "x") = [] :=
  c5_overlong_topic_rejected [⟨"gate"⟩] "a/b/c/d/e" "x" (by decide)
    (by decide)

/-! ### Device layer: values, parameter store, events -/

/-- A scalar value as stored in a parameter store or carried in a payload.
Python floats are embedded as rationals; an MQTT payload string spelling a
float literal is embedded as Val.num, any other string as Val.str. -/
inductive Val
  | str (s : String)
  | num (q : ℚ)
deriving DecidableEq, Repr

/-- Argument of a threshold or period setter: the Python value None (used
by reset), or a payload value. -/
inductive RawIn
  | pynone
  | payload (v : Val)
deriving DecidableEq, Repr

/-- Embeds the Python expression float(x or dflt): None and the empty
string are falsy and replaced by the default before conversion; a numeric
payload converts to its value (a float literal string is nonempty, hence
truthy, even when it spells zero); any other string raises ValueError,
yielding none. -/
def floatOrDefault (dflt : ℚ) : RawIn → Option ℚ
  | RawIn.pynone => some dflt
  | RawIn.payload (Val.num q) => some q
  | RawIn.payload (Val.str s) => if s = "" then some dflt else none

/-- Embeds the Python call float(value) on a payload: numeric payloads
convert, any other string raises, yielding none. -/
def pyFloat : Val → Option ℚ
  | Val.num q => some q
  | Val.str _ => none

/-- Embeds the Python comparison old == new between a stored value and a
float: true exactly for an equal numeric value. -/
def valEqNum : Val → ℚ → Bool
  | Val.num p, q => p == q
  | Val.str _, _ => false

/-- An observable outbound message of a device: one published parameter, or
one full status republication. -/
inductive Event
  | param (par meas : String) (v : Val)
  | statusRepub
deriving DecidableEq, Repr

/-- Number of full status republications in a list of events. -/
def countStatus : List Event → Nat
  | [] => 0
  | Event.param _ _ _ :: es => countStatus es
  | Event.statusRepub :: es => countStatus es + 1

/-- An uncaught Python exception relevant to the embedded code. -/
inductive PyErr
  | typeError
deriving DecidableEq, Repr

/-- The per-device parameter store: a mapping from (parameter, measure) to
a scalar value, embedded as an association list. -/
abbrev Store := List ((String × String) × Val)

/-- Lookup of a key with a caller-supplied fallback (spec section 4.2:
reading an unset key returns the fallback, never an error). -/
def storeGet (st : Store) (par meas : String) (fb : Val) : Val :=
  match st with
  | [] => fb
  | (k, v) :: rest => if k = (par, meas) then v else storeGet rest par meas fb

/-- Removal of all entries at one key. -/
def storeErase (st : Store) (par meas : String) : Store :=
  match st with
  | [] => []
  | (k, w) :: rest =>
    if k = (par, meas) then storeErase rest par meas
    else (k, w) :: storeErase rest par meas

/-- Overwriting update of the store at one key. -/
def storeSet (st : Store) (v : Val) (par meas : String) : Store :=
  ((par, meas), v) :: storeErase st par meas

theorem storeGet_set_same (st : Store) (v : Val) (par meas : String)
    (fb : Val) : storeGet (storeSet st v par meas) par meas fb = v := by
  simp [storeGet, storeSet]

theorem storeGet_erase_ne (st : Store) (par meas p2 m2 : String) (fb : Val)
    (h : ¬((p2, m2) = (par, meas))) :
    storeGet (storeErase st par meas) p2 m2 fb = storeGet st p2 m2 fb := by
  induction st with
  | nil => rfl
  | cons e es ih =>
    obtain ⟨k, w⟩ := e
    by_cases he : k = (par, meas)
    · have hk2 : ¬(k = (p2, m2)) := by
        rw [he]
        intro hcon
        exact h hcon.symm
      simp only [storeErase, storeGet, if_pos he, if_neg hk2]
      exact ih
    · simp only [storeErase, storeGet, if_neg he]
      by_cases hk2 : k = (p2, m2)
      · simp only [storeGet, if_pos hk2]
      · simp only [storeGet, if_neg hk2]
        exact ih

theorem storeGet_set_ne (st : Store) (v : Val) (par meas p2 m2 : String)
    (fb : Val) (h : ¬((p2, m2) = (par, meas))) :
    storeGet (storeSet st v par meas) p2 m2 fb = storeGet st p2 m2 fb := by
  unfold storeSet
  have hne : ¬(((par, meas) : String × String) = (p2, m2)) := by
    intro hc
    exact h hc.symm
  simp only [storeGet, if_neg hne]
  exact storeGet_erase_ne st par meas p2 m2 fb h

/-- Modelled from the spec: token of measure VALUE of the external
modIot.Measure enumeration. -/
def mVALUE : String := "value"

/-- Modelled from the spec: token of measure DEFAULT of the external
modIot.Measure enumeration. -/
def mDEFAULT : String := "default"

/-- Modelled from the spec: token of measure MINIMUM of the external
modIot.Measure enumeration. -/
def mMINIMUM : String := "minimum"

/-- Modelled from the spec: token of measure MAXIMUM of the external
modIot.Measure enumeration. -/
def mMAXIMUM : String := "maximum"

/-- Modelled from the spec: token of measure PERCENTAGE of the external
modIot.Measure enumeration. -/
def mPERCENTAGE : String := "percentage"

/-- Modelled from the spec: token of measure GPIO of the external
modIot.Measure enumeration. -/
def mGPIO : String := "gpio"

/-- Modelled from the spec: payload token of the generic command
GET_STATUS of the external modIot.Command enumeration. -/
def cmdSTATUS : String := "status"

/-- Modelled from the spec: payload token of the generic command RESET of
the external modIot.Command enumeration. -/
def cmdRESET : String := "reset"

/-- Modelled from the spec: payload token of command TURN_ON of the
external modIot.Command enumeration. -/
def cmdON : String := "on"

/-- Modelled from the spec: payload token of command TURN_OFF of the
external modIot.Command enumeration. -/
def cmdOFF : String := "off"

/-- Modelled from the spec: payload token of command TOGGLE of the
external modIot.Command enumeration. -/
def cmdTOGGLE : String := "toggle"

/-- Modelled from the spec: token of modIot.Status.ACTIVE of the external
library (spec section 8 names the payload active). -/
def stACTIVE : String := "active"

/-- Modelled from the spec: token of modIot.Status.IDLE of the external
library. -/
def stIDLE : String := "idle"

/-! ### Fan device (plugins/iotgate_fan.py) -/

/-- State of the fan device: its parameter store, the GPIO pin level of the
fan (true when powered; the constructor puts the pin into output mode, so
the input branch of the activity property is dead), the cached received
temperature percentage (None at construction), and the outbound messages
published so far. -/
structure FanState where
  store : Store
  pin : Bool
  percentage : Option ℚ
  published : List Event
deriving DecidableEq, Repr

namespace Fan

/-- Parameter token FAN of the fan plugin (value cfan). -/
def pFAN : String := "cfan"

/-- Parameter token ACTIVITY of the fan plugin (value run). -/
def pACTIVITY : String := "run"

/-- Parameter token PERCENTAGE_ON of the fan plugin (value percon). -/
def pPERCON : String := "percon"

/-- Parameter token PERCENTAGE_OFF of the fan plugin (value percoff). -/
def pPERCOFF : String := "percoff"

/-- Source device identifier the fan listens to (value server). -/
def srcServerDid : String := "server"

/-- Modelled from the spec: set_param of the external base class
modIot.Plugin overwrites the store entry without validation. -/
def set_param (s : FanState) (v : Val) (par meas : String) : FanState :=
  { s with store := storeSet s.store v par meas }

/-- Modelled from the spec: get_param of the external base class
modIot.Plugin returns the stored value or the fallback. -/
def get_param (s : FanState) (par meas : String) (fb : Val) : Val :=
  storeGet s.store par meas fb

/-- Modelled from the spec: publish_param of the external base class
modIot.Plugin reads the current value and publishes it as one outbound
message. -/
def publish_param (s : FanState) (par meas : String) : FanState :=
  { s with published := s.published ++
      [Event.param par meas (storeGet s.store par meas (Val.str ""))] }

/-- Modelled from the spec: publish_status of the external base class
modIot.Plugin republishes the full device status as one outbound
event. -/
def publish_status (s : FanState) : FanState :=
  { s with published := s.published ++ [Event.statusRepub] }

/-- Embeds the activity property (lines 132 to 144): the pin is in output
mode after construction, so the result is active when the pin is on and
idle when it is off. -/
def activity (s : FanState) : String :=
  if s.pin then stACTIVE else stIDLE

/-- Embeds the percon getter (lines 146 to 152): reads the store entry
(percon, value) with fallback 90. -/
def percon (s : FanState) : Val :=
  storeGet s.store pPERCON mVALUE (Val.num 90)

/-- Embeds the percoff getter (lines 178 to 184): reads the store entry
(percoff, default) — not (percoff, value) — with fallback 60. -/
def percoff (s : FanState) : Val :=
  storeGet s.store pPERCOFF mDEFAULT (Val.num 60)

/-- Embeds fan_on with the fan_command decorator (lines 38 to 48 and 210
to 217): when the pin is off it is turned on, the ACTIVITY parameter is
set from the new pin level and published; otherwise nothing happens. -/
def fan_on (s : FanState) : FanState :=
  if s.pin = false then
    let s1 : FanState := { s with pin := true }
    let s2 := set_param s1 (Val.str (activity s1)) pACTIVITY mVALUE
    publish_param s2 pACTIVITY mVALUE
  else s

/-- Embeds fan_off with the fan_command decorator (lines 219 to 226):
when the pin is on it is turned off, the ACTIVITY parameter is set and
published; otherwise nothing happens. -/
def fan_off (s : FanState) : FanState :=
  if s.pin = true then
    let s1 : FanState := { s with pin := false }
    let s2 := set_param s1 (Val.str (activity s1)) pACTIVITY mVALUE
    publish_param s2 pACTIVITY mVALUE
  else s

/-- Embeds fan_toggle with the fan_command decorator (lines 228 to 232):
the pin is always toggled, the ACTIVITY parameter set and published. -/
def fan_toggle (s : FanState) : FanState :=
  let s1 : FanState := { s with pin := !s.pin }
  let s2 := set_param s1 (Val.str (activity s1)) pACTIVITY mVALUE
  publish_param s2 pACTIVITY mVALUE

/-- Embeds fan_process (lines 234 to 242): compares the cached percentage
with the thresholds. A cached percentage of None, or a non-numeric stored
threshold, makes the Python comparison raise TypeError, which the function
does not catch. -/
def fan_process (s : FanState) : FanState × Option PyErr :=
  match s.percentage with
  | none => (s, some PyErr.typeError)
  | some p =>
    match percon s with
    | Val.str _ => (s, some PyErr.typeError)
    | Val.num onThr =>
      if onThr ≤ p then (fan_on s, none)
      else
        match percoff s with
        | Val.str _ => (s, some PyErr.typeError)
        | Val.num offThr =>
          if p ≤ offThr then (fan_off s, none) else (s, none)

/-- Embeds the percon setter (lines 154 to 176): the new value is
float(raw or 90); a conversion failure or equality with the previous value
(compared before clamping) is a silent no-op; otherwise the absolute value
clamped to the range 80 to 95 is stored under (percon, value), published,
and fan_process is run, whose TypeError, if any, propagates. -/
def percon_set (s : FanState) (raw : RawIn) : FanState × Option PyErr :=
  let old := percon s
  match floatOrDefault 90 raw with
  | none => (s, none)
  | some new =>
    if valEqNum old new then (s, none)
    else
      let c := min (max |new| 80) 95
      let s1 := set_param s (Val.num c) pPERCON mVALUE
      let s2 := publish_param s1 pPERCON mVALUE
      fan_process s2

/-- Embeds the percoff setter (lines 186 to 208): the new value is
float(raw or 60); a conversion failure or equality with the previous value
(read through the percoff getter, hence from the (percoff, default) entry)
is a silent no-op; otherwise the absolute value clamped to the range 50 to
75 is stored under (percoff, value), published, and fan_process is run. -/
def percoff_set (s : FanState) (raw : RawIn) : FanState × Option PyErr :=
  let old := percoff s
  match floatOrDefault 60 raw with
  | none => (s, none)
  | some new =>
    if valEqNum old new then (s, none)
    else
      let c := min (max |new| 50) 75
      let s1 := set_param s (Val.num c) pPERCOFF mVALUE
      let s2 := publish_param s1 pPERCOFF mVALUE
      fan_process s2

/-- Embeds the constructor (lines 81 to 117): the pin is driven off, the
cached percentage is None, and the parameter store is initialised; the
initial (percon, value) and (percoff, value) entries are produced by the
getters, whose fallbacks apply because the store is still empty at that
point. No message is published during construction. -/
def fanInit : FanState :=
  let s0 : FanState := ⟨[], false, none, []⟩
  let s1 := set_param s0 (Val.str "PA13") pFAN mGPIO
  let s2 := set_param s1 (Val.str (activity s1)) pACTIVITY mVALUE
  let s3 := set_param s2 (percon s2) pPERCON mVALUE
  let s4 := set_param s3 (Val.num 90) pPERCON mDEFAULT
  let s5 := set_param s4 (Val.num 80) pPERCON mMINIMUM
  let s6 := set_param s5 (Val.num 95) pPERCON mMAXIMUM
  let s7 := set_param s6 (percoff s6) pPERCOFF mVALUE
  let s8 := set_param s7 (Val.num 60) pPERCOFF mDEFAULT
  let s9 := set_param s8 (Val.num 50) pPERCOFF mMINIMUM
  set_param s9 (Val.num 75) pPERCOFF mMAXIMUM

/-- Embeds process_own_command (lines 251 to 300): generic commands run
when parameter and measure are both absent; reset assigns None to percon
and then percoff, and an exception from the first assignment skips the
second; a percon or percoff parameter command with measure value runs the
corresponding setter on the payload. -/
def process_own_command (s : FanState) (value : Val)
    (par meas : Option String) : FanState × Option PyErr :=
  if par = none ∧ meas = none then
    let s1 := if value = Val.str cmdSTATUS then publish_status s else s
    let s2 := if value = Val.str cmdON then fan_on s1 else s1
    let s3 := if value = Val.str cmdOFF then fan_off s2 else s2
    let s4 := if value = Val.str cmdTOGGLE then fan_toggle s3 else s3
    if value = Val.str cmdRESET then
      match percon_set s4 RawIn.pynone with
      | (s5, some e) => (s5, some e)
      | (s5, none) => percoff_set s5 RawIn.pynone
    else (s4, none)
  else if par = some pPERCON ∧ meas = some mVALUE then
    percon_set s (RawIn.payload value)
  else if par = some pPERCOFF ∧ meas = some mVALUE then
    percoff_set s (RawIn.payload value)
  else (s, none)

/-- A source device object as the fan handler inspects it: its device
identifier and the token of its TEMPERATURE parameter (the system plugin
has did server and temperature token temp). -/
structure SrcDevice where
  did : String
  temperatureParam : String
deriving DecidableEq, Repr

/-- Embeds process_data (lines 302 to 337): only messages attributed to
the device with identifier server and carrying its temperature parameter
with measure percentage are processed; an unparseable payload is ignored
with a warning; otherwise the cached percentage is updated and fan_process
runs. -/
def process_data (s : FanState) (value : Val) (par meas : Option String)
    (dev : SrcDevice) : FanState × Option PyErr :=
  if dev.did = srcServerDid then
    if par = some dev.temperatureParam ∧ meas = some mPERCENTAGE then
      match pyFloat value with
      | none => (s, none)
      | some q => fan_process { s with percentage := some q }
    else (s, none)
  else (s, none)

/-- C7: from the initial state (fan IDLE, on threshold 90, off threshold
60), processing the temperature percentages 95, 85, 75, 65, 55 turns the
fan on exactly once (at 95), off exactly once (at 55), does nothing at 85,
75 and 65, publishes the ACTIVITY parameter at the two transitions only,
and updates the stored ACTIVITY value at both transitions. -/
theorem c7_hysteresis_no_oscillation :
    let srv : SrcDevice := ⟨"server", "temp"⟩
    let e1 := process_data fanInit (Val.num 95) (some "temp")
      (some mPERCENTAGE) srv
    let e2 := process_data e1.1 (Val.num 85) (some "temp")
      (some mPERCENTAGE) srv
    let e3 := process_data e2.1 (Val.num 75) (some "temp")
      (some mPERCENTAGE) srv
    let e4 := process_data e3.1 (Val.num 65) (some "temp")
      (some mPERCENTAGE) srv
    let e5 := process_data e4.1 (Val.num 55) (some "temp")
      (some mPERCENTAGE) srv
    fanInit.pin = false ∧
    e1.1.pin = true ∧ e1.2 = none ∧
    e1.1.published = [Event.param pACTIVITY mVALUE (Val.str stACTIVE)] ∧
    storeGet e1.1.store pACTIVITY mVALUE (Val.str "") = Val.str stACTIVE ∧
    e2.1.pin = true ∧ e2.2 = none ∧ e2.1.published = e1.1.published ∧
    e3.1.pin = true ∧ e3.2 = none ∧ e3.1.published = e1.1.published ∧
    e4.1.pin = true ∧ e4.2 = none ∧ e4.1.published = e1.1.published ∧
    e5.1.pin = false ∧ e5.2 = none ∧
    e5.1.published = [Event.param pACTIVITY mVALUE (Val.str stACTIVE),
      Event.param pACTIVITY mVALUE (Val.str stIDLE)] ∧
    storeGet e5.1.store pACTIVITY mVALUE (Val.str "") = Val.str stIDLE := by
  decide

/-- C10: while the cached percentage is still None (as at construction),
fan_process raises TypeError, and a percon command whose parseable value
differs from the previous one reaches fan_process after storing and
publishing, so the TypeError propagates out of process_own_command. -/
theorem c10_typeerror_on_missing_percentage (s : FanState) (v : Val)
    (q : ℚ) (hp : s.percentage = none)
    (hparse : floatOrDefault 90 (RawIn.payload v) = some q)
    (hchange : valEqNum (percon s) q = false) :
    (fan_process s).2 = some PyErr.typeError ∧
    (process_own_command s v (some pPERCON) (some mVALUE)).2 =
      some PyErr.typeError := by
  have hfp : ∀ t : FanState, t.percentage = none →
      (fan_process t).2 = some PyErr.typeError := by
    intro t ht
    unfold fan_process
    split
    · rfl
    · rename_i p hsome
      rw [ht] at hsome
      exact absurd hsome (by simp)
  constructor
  · exact hfp s hp
  · have hbranch : process_own_command s v (some pPERCON) (some mVALUE) =
        percon_set s (RawIn.payload v) := by
      unfold process_own_command
      rw [if_neg (by simp), if_pos ⟨rfl, rfl⟩]
    rw [hbranch]
    unfold percon_set
    rw [hparse]
    simp only [hchange, Bool.false_eq_true, if_false]
    exact hfp _ hp

/-- C10 witness: at the initial state a percon command with value 85
raises TypeError out of the command handler. -/
theorem c10_typeerror_witness :
    (Fan.fan_process Fan.fanInit).2 = some PyErr.typeError ∧
    (Fan.process_own_command Fan.fanInit (Val.num 85) (some Fan.pPERCON)
        (some mVALUE)).2 = some PyErr.typeError :=
  c10_typeerror_on_missing_percentage fanInit (Val.num 85) 85 rfl rfl
    (by decide)

end Fan

theorem countStatus_append (a b : List Event) :
    countStatus (a ++ b) = countStatus a + countStatus b := by
  induction a with
  | nil => simp [countStatus]
  | cons e es ih =>
    cases e with
    | param p m v => simpa [countStatus] using ih
    | statusRepub => simp [countStatus, ih]; omega

namespace Fan

theorem fan_on_store_other (s : FanState) (p m : String) (fb : Val)
    (h : ¬((p, m) = (pACTIVITY, mVALUE))) :
    storeGet (fan_on s).store p m fb = storeGet s.store p m fb := by
  unfold fan_on
  by_cases hp : s.pin = false
  · rw [if_pos hp]
    exact storeGet_set_ne _ _ _ _ _ _ _ h
  · rw [if_neg hp]

theorem fan_off_store_other (s : FanState) (p m : String) (fb : Val)
    (h : ¬((p, m) = (pACTIVITY, mVALUE))) :
    storeGet (fan_off s).store p m fb = storeGet s.store p m fb := by
  unfold fan_off
  by_cases hp : s.pin = true
  · rw [if_pos hp]
    exact storeGet_set_ne _ _ _ _ _ _ _ h
  · rw [if_neg hp]

theorem fan_process_store_other (s : FanState) (p m : String) (fb : Val)
    (h : ¬((p, m) = (pACTIVITY, mVALUE))) :
    storeGet (fan_process s).1.store p m fb = storeGet s.store p m fb := by
  unfold fan_process
  split
  · rfl
  · split
    · rfl
    · split
      · exact fan_on_store_other s p m fb h
      · split
        · rfl
        · split
          · exact fan_off_store_other s p m fb h
          · rfl

theorem fan_on_published (s : FanState) :
    ∃ u, (fan_on s).published = s.published ++ u ∧ countStatus u = 0 := by
  unfold fan_on
  by_cases hp : s.pin = false
  · rw [if_pos hp]
    exact ⟨_, rfl, rfl⟩
  · rw [if_neg hp]
    exact ⟨[], by simp, rfl⟩

theorem fan_off_published (s : FanState) :
    ∃ u, (fan_off s).published = s.published ++ u ∧ countStatus u = 0 := by
  unfold fan_off
  by_cases hp : s.pin = true
  · rw [if_pos hp]
    exact ⟨_, rfl, rfl⟩
  · rw [if_neg hp]
    exact ⟨[], by simp, rfl⟩

theorem fan_process_published (s : FanState) :
    ∃ u, (fan_process s).1.published = s.published ++ u ∧
      countStatus u = 0 := by
  unfold fan_process
  split
  · exact ⟨[], by simp, rfl⟩
  · split
    · exact ⟨[], by simp, rfl⟩
    · split
      · exact fan_on_published s
      · split
        · exact ⟨[], by simp, rfl⟩
        · split
          · exact fan_off_published s
          · exact ⟨[], by simp, rfl⟩

theorem fan_process_percentage (s : FanState) :
    (fan_process s).1.percentage = s.percentage := by
  unfold fan_process fan_on fan_off
  split
  · rfl
  · split
    · rfl
    · split
      · by_cases hp : s.pin = false
        · rw [if_pos hp]
          rfl
        · rw [if_neg hp]
      · split
        · rfl
        · split
          · by_cases hp : s.pin = true
            · rw [if_pos hp]
              rfl
            · rw [if_neg hp]
          · rfl

theorem percon_set_num (s : FanState) (q : ℚ) :
    percon_set s (RawIn.payload (Val.num q)) =
      if valEqNum (percon s) q then (s, none)
      else fan_process (publish_param (set_param s
        (Val.num (min (max |q| 80) 95)) pPERCON mVALUE) pPERCON mVALUE) :=
  rfl

theorem percoff_set_num (s : FanState) (q : ℚ) :
    percoff_set s (RawIn.payload (Val.num q)) =
      if valEqNum (percoff s) q then (s, none)
      else fan_process (publish_param (set_param s
        (Val.num (min (max |q| 50) 75)) pPERCOFF mVALUE) pPERCOFF mVALUE) :=
  rfl

theorem percoff_preserved_set (s : FanState) (r : RawIn) :
    percoff (percoff_set s r).1 = percoff s := by
  unfold percoff_set
  cases floatOrDefault 60 r with
  | none => rfl
  | some new =>
    by_cases hv : valEqNum (percoff s) new = true
    · simp only [hv, if_pos]
    · rw [Bool.not_eq_true] at hv
      simp only [hv, Bool.false_eq_true, if_false]
      show percoff (fan_process _).1 = _
      unfold percoff
      rw [fan_process_store_other _ _ _ _ (by decide)]
      show storeGet (storeSet _ _ _ _) _ _ _ = _
      rw [storeGet_set_ne _ _ _ _ _ _ _ (by decide)]

/-- C9: the percoff getter reads the (percoff, default) store entry,
which the constructor writes as 60 and which the percoff setter never
touches (the setter writes (percoff, value)); hence after any sequence of
off-threshold write commands the off threshold that fan_process consults
is still 60. -/
theorem c9_percoff_getter_stuck_at_default (rs : List RawIn) :
    percoff (rs.foldl (fun s r => (percoff_set s r).1) fanInit) =
      Val.num 60 := by
  suffices h : ∀ s, percoff (rs.foldl (fun s r => (percoff_set s r).1) s) =
      percoff s by
    rw [h fanInit]
    rfl
  induction rs with
  | nil => intro s; rfl
  | cons r rest ih =>
    intro s
    simp only [List.foldl_cons]
    rw [ih (percoff_set s r).1, percoff_preserved_set]

/-- C6 counterexample: the claim states that a write whose post-clamp
value equals the previous value is a no-op with no publish. Starting from
the initial state, writing 99 stores the clamped 95; writing 99 again has
post-clamp value 95 equal to the previous value, yet the code compares the
raw 99 with 95 before clamping and therefore stores, publishes and
re-evaluates again. -/
theorem c6_preclamp_comparison_counterexample :
    Fan.percon (Fan.percon_set Fan.fanInit (RawIn.payload (Val.num 99))).1 =
      Val.num 95 ∧
    min (max |(99 : ℚ)| 80) 95 = 95 ∧
    (Fan.percon_set
        (Fan.percon_set Fan.fanInit (RawIn.payload (Val.num 99))).1
        (RawIn.payload (Val.num 99))).1.published.length =
      (Fan.percon_set Fan.fanInit
          (RawIn.payload (Val.num 99))).1.published.length + 1 := by
  refine ⟨by decide, by decide, by decide⟩

/-- C6 amended: for a parseable numeric raw value q, the write is a no-op
exactly when q equals the previous value before clamping; otherwise the
stored value is the absolute value of q clamped to the threshold range and
the new value is published (followed by a re-evaluation), even when the
clamped value equals the previous one. -/
theorem c6_amended_threshold_write (s : FanState) (q : ℚ) :
    (percon s = Val.num q →
      percon_set s (RawIn.payload (Val.num q)) = (s, none)) ∧
    (percon s ≠ Val.num q →
      percon (percon_set s (RawIn.payload (Val.num q))).1 =
        Val.num (min (max |q| 80) 95) ∧
      ∃ tail, (percon_set s (RawIn.payload (Val.num q))).1.published =
        s.published ++
          Event.param pPERCON mVALUE (Val.num (min (max |q| 80) 95)) ::
            tail) ∧
    (percoff s = Val.num q →
      percoff_set s (RawIn.payload (Val.num q)) = (s, none)) ∧
    (percoff s ≠ Val.num q →
      storeGet (percoff_set s (RawIn.payload (Val.num q))).1.store pPERCOFF
          mVALUE (Val.str "") = Val.num (min (max |q| 50) 75) ∧
      ∃ tail, (percoff_set s (RawIn.payload (Val.num q))).1.published =
        s.published ++
          Event.param pPERCOFF mVALUE (Val.num (min (max |q| 50) 75)) ::
            tail) := by
  have hnum : ∀ w : Val, w ≠ Val.num q → valEqNum w q = false := by
    intro w hw
    cases w with
    | str a => rfl
    | num p =>
      simp [valEqNum]
      intro hc
      exact absurd (by rw [hc]) hw
  refine ⟨?_, ?_, ?_, ?_⟩
  · intro hold
    rw [percon_set_num, hold]
    simp [valEqNum]
  · intro hold
    rw [percon_set_num]
    simp only [hnum _ hold, Bool.false_eq_true, if_false]
    constructor
    · unfold percon
      rw [fan_process_store_other _ _ _ _ (by decide)]
      show storeGet (storeSet _ _ _ _) _ _ _ = _
      rw [storeGet_set_same]
    · obtain ⟨u, hu, _⟩ := fan_process_published
        (publish_param (set_param s (Val.num (min (max |q| 80) 95))
          pPERCON mVALUE) pPERCON mVALUE)
      refine ⟨u, ?_⟩
      rw [hu]
      show (s.published ++ [Event.param pPERCON mVALUE
        (storeGet (storeSet s.store _ _ _) pPERCON mVALUE (Val.str ""))])
          ++ u = _
      rw [storeGet_set_same]
      simp
  · intro hold
    rw [percoff_set_num, hold]
    simp [valEqNum]
  · intro hold
    rw [percoff_set_num]
    simp only [hnum _ hold, Bool.false_eq_true, if_false]
    constructor
    · rw [fan_process_store_other _ _ _ _ (by decide)]
      show storeGet (storeSet _ _ _ _) _ _ _ = _
      rw [storeGet_set_same]
    · obtain ⟨u, hu, _⟩ := fan_process_published
        (publish_param (set_param s (Val.num (min (max |q| 50) 75))
          pPERCOFF mVALUE) pPERCOFF mVALUE)
      refine ⟨u, ?_⟩
      rw [hu]
      show (s.published ++ [Event.param pPERCOFF mVALUE
        (storeGet (storeSet s.store _ _ _) pPERCOFF mVALUE (Val.str ""))])
          ++ u = _
      rw [storeGet_set_same]
      simp

theorem fan_on_countStatus (s : FanState) :
    countStatus (fan_on s).published = countStatus s.published := by
  obtain ⟨u, hu, hc⟩ := fan_on_published s
  rw [hu, countStatus_append, hc]
  rfl

theorem fan_off_countStatus (s : FanState) :
    countStatus (fan_off s).published = countStatus s.published := by
  obtain ⟨u, hu, hc⟩ := fan_off_published s
  rw [hu, countStatus_append, hc]
  rfl

theorem fan_process_countStatus (s : FanState) :
    countStatus (fan_process s).1.published = countStatus s.published := by
  obtain ⟨u, hu, hc⟩ := fan_process_published s
  rw [hu, countStatus_append, hc]
  rfl


theorem percon_set_countStatus (s : FanState) (r : RawIn) :
    countStatus (percon_set s r).1.published =
      countStatus s.published := by
  unfold percon_set
  cases floatOrDefault 90 r with
  | none => rfl
  | some new =>
    by_cases hv : valEqNum (percon s) new = true
    · simp only [hv, if_pos]
    · rw [Bool.not_eq_true] at hv
      simp only [hv, Bool.false_eq_true, if_false]
      rw [fan_process_countStatus]
      show countStatus (s.published ++ [Event.param _ _ _]) = _
      rw [countStatus_append]
      rfl

theorem percoff_set_countStatus (s : FanState) (r : RawIn) :
    countStatus (percoff_set s r).1.published =
      countStatus s.published := by
  unfold percoff_set
  cases floatOrDefault 60 r with
  | none => rfl
  | some new =>
    by_cases hv : valEqNum (percoff s) new = true
    · simp only [hv, if_pos]
    · rw [Bool.not_eq_true] at hv
      simp only [hv, Bool.false_eq_true, if_false]
      rw [fan_process_countStatus]
      show countStatus (s.published ++ [Event.param _ _ _]) = _
      rw [countStatus_append]
      rfl

/-- C6 amended witness: at the initial state, writing the current value 90
is a no-op, and writing 91 stores and publishes the in-range 91. -/
theorem c6_amended_witness :
    Fan.percon_set Fan.fanInit (RawIn.payload (Val.num 90)) =
      (Fan.fanInit, none) ∧
    Fan.percon (Fan.percon_set Fan.fanInit
        (RawIn.payload (Val.num 91))).1 = Val.num 91 := by
  constructor
  · exact (c6_amended_threshold_write fanInit 90).1 (by decide)
  · have h := ((c6_amended_threshold_write fanInit (91 : ℚ)).2.1
      (by decide)).1
    rw [h]
    norm_num

end Fan

/-! ### Gateway device (plugins/iotgate_iotgate.py) -/

/-- State of the gateway device: its parameter store, the private period
attribute (None until the lazy getter first runs), the period of the
reconnect timer, and the outbound messages published so far. -/
structure IotState where
  store : Store
  period : Option ℚ
  timerPeriod : ℚ
  published : List Event
deriving DecidableEq, Repr

namespace Gate

/-- Parameter token PERIOD of the gateway plugin (value period). -/
def pPERIOD : String := "period"

/-- Modelled from the spec: set_param of the external base class
modIot.Plugin overwrites the store entry without validation. -/
def set_param (s : IotState) (v : Val) (par meas : String) : IotState :=
  { s with store := storeSet s.store v par meas }

/-- Modelled from the spec: publish_param of the external base class
modIot.Plugin reads the current value and publishes it as one outbound
message. -/
def publish_param (s : IotState) (par meas : String) : IotState :=
  { s with published := s.published ++
      [Event.param par meas (storeGet s.store par meas (Val.str ""))] }

/-- Modelled from the spec: publish_status of the external base class
modIot.Plugin republishes the full device status as one outbound
event. -/
def publish_status (s : IotState) : IotState :=
  { s with published := s.published ++ [Event.statusRepub] }

/-- Embeds the period getter (lines 82 to 87): lazily initialises the
private attribute to the default 30 and returns it. -/
def period_get (s : IotState) : IotState × ℚ :=
  match s.period with
  | none => ({ s with period := some 30 }, 30)
  | some p => (s, p)

/-- Embeds the period setter (lines 89 to 112): the new value is
float(raw or 30), assigned to the private attribute before the comparison
with the previous value; a conversion failure or an equal value stops
there; otherwise the absolute value clamped to the range 5 to 180 is
assigned, stored under (period, default), published, and applied to the
reconnect timer. -/
def period_set (s : IotState) (raw : RawIn) : IotState :=
  let sp := period_get s
  match floatOrDefault 30 raw with
  | none => sp.1
  | some new =>
    let s2 : IotState := { sp.1 with period := some new }
    if sp.2 = new then s2
    else
      let p := min (max |new| 5) 180
      let s3 : IotState := { s2 with period := some p }
      let s4 := set_param s3 (Val.num p) pPERIOD mDEFAULT
      let s5 := publish_param s4 pPERIOD mDEFAULT
      { s5 with timerPeriod := p }

/-- Embeds the constructor (lines 56 to 74): the reconnect timer is
created with the period from the lazy getter, and the store receives the
default, minimum and maximum period entries. -/
def iotgateInit : IotState :=
  let s0 : IotState := ⟨[], none, 0, []⟩
  let sp := period_get s0
  let s1 : IotState := { sp.1 with timerPeriod := sp.2 }
  let s2 := set_param s1 (Val.num (period_get s1).2) pPERIOD mDEFAULT
  let s3 := set_param s2 (Val.num 5) pPERIOD mMINIMUM
  set_param s3 (Val.num 180) pPERIOD mMAXIMUM

/-- Embeds process_command (lines 346 to 365): with no parameter and no
measure, a get-status payload republishes the status and a reset payload
assigns the default 30 to the period and republishes the status; a period
parameter command with measure value runs the period setter on the
payload. -/
def process_command (s : IotState) (value : Val)
    (par meas : Option String) : IotState :=
  if par = none ∧ meas = none then
    let s1 := if value = Val.str cmdSTATUS then publish_status s else s
    if value = Val.str cmdRESET then
      publish_status (period_set s1 (RawIn.payload (Val.num 30)))
    else s1
  else if par = some pPERIOD ∧ meas = some mVALUE then
    period_set s (RawIn.payload value)
  else s

theorem period_set_eq_of_parse (s : IotState) (r : RawIn) (new : ℚ)
    (hr : floatOrDefault 30 r = some new) :
    period_set s r =
      if (period_get s).2 = new
      then { (period_get s).1 with period := some new }
      else
        { publish_param
            (set_param
              { (period_get s).1 with
                period := some (min (max |new| 5) 180) }
              (Val.num (min (max |new| 5) 180)) pPERIOD mDEFAULT)
            pPERIOD mDEFAULT
          with timerPeriod := min (max |new| 5) 180 } := by
  unfold period_set
  rw [hr]

theorem period_set_eq_of_parsefail (s : IotState) (r : RawIn)
    (hr : floatOrDefault 30 r = none) :
    period_set s r = (period_get s).1 := by
  unfold period_set
  rw [hr]

theorem period_set_default_restores (s : IotState) :
    (period_set s (RawIn.payload (Val.num 30))).period = some 30 := by
  rw [period_set_eq_of_parse s (RawIn.payload (Val.num 30)) 30 rfl]
  by_cases h : (period_get s).2 = 30
  · rw [if_pos h]
  · rw [if_neg h]
    show some (min (max |(30 : ℚ)| 5) 180) = some 30
    norm_num

theorem period_set_published (s : IotState) (r : RawIn) :
    ∃ u, (period_set s r).published = s.published ++ u ∧
      countStatus u = 0 := by
  have hsp : (period_get s).1.published = s.published := by
    unfold period_get
    cases s.period <;> rfl
  cases hr : floatOrDefault 30 r with
  | none =>
    rw [period_set_eq_of_parsefail s r hr]
    exact ⟨[], by rw [hsp, List.append_nil], rfl⟩
  | some new =>
    rw [period_set_eq_of_parse s r new hr]
    by_cases h : (period_get s).2 = new
    · refine ⟨[], ?_, rfl⟩
      rw [if_pos h]
      show (period_get s).1.published = s.published ++ []
      rw [hsp, List.append_nil]
    · refine ⟨[Event.param pPERIOD mDEFAULT
        (Val.num (min (max |new| 5) 180))], ?_, rfl⟩
      rw [if_neg h]
      show (period_get s).1.published ++ [Event.param pPERIOD mDEFAULT
        (storeGet (storeSet (period_get s).1.store
          (Val.num (min (max |new| 5) 180)) pPERIOD mDEFAULT)
          pPERIOD mDEFAULT (Val.str ""))] = _
      rw [storeGet_set_same, hsp]

theorem period_set_countStatus (s : IotState) (r : RawIn) :
    countStatus (period_set s r).published = countStatus s.published := by
  obtain ⟨u, hu, hc⟩ := period_set_published s r
  rw [hu, countStatus_append, hc]
  rfl

end Gate

/-- C8 counterexample: the claim states that a reset command triggers
exactly one full status republish on every device. On the fan device at
its initial state the reset command is a complete no-op: the state is
unchanged and nothing was ever published, so zero status republications
occur. -/
theorem c8_fan_reset_counterexample :
    Fan.process_own_command Fan.fanInit (Val.str cmdRESET) none none =
      (Fan.fanInit, none) ∧
    Fan.fanInit.published = [] := by
  refine ⟨by decide, rfl⟩

/-- C8 amended: the reset command restores the gateway period to its
default 30 and republishes the gateway status exactly once, while the fan
device reset runs its threshold setters but never republishes the full
fan status. -/
theorem c8_amended_reset (s : IotState) (t : FanState) :
    (Gate.process_command s (Val.str cmdRESET) none none).period =
      some 30 ∧
    countStatus (Gate.process_command s (Val.str cmdRESET) none
        none).published = countStatus s.published + 1 ∧
    countStatus (Fan.process_own_command t (Val.str cmdRESET) none
        none).1.published = countStatus t.published := by
  have hgate : Gate.process_command s (Val.str cmdRESET) none none =
      Gate.publish_status (Gate.period_set s
        (RawIn.payload (Val.num 30))) := rfl
  have hfan : Fan.process_own_command t (Val.str cmdRESET) none none =
      (match Fan.percon_set t RawIn.pynone with
        | (s5, some e) => (s5, some e)
        | (s5, none) => Fan.percoff_set s5 RawIn.pynone) := rfl
  refine ⟨?_, ?_, ?_⟩
  · rw [hgate]
    exact Gate.period_set_default_restores s
  · rw [hgate]
    show countStatus ((Gate.period_set s
      (RawIn.payload (Val.num 30))).published ++ [Event.statusRepub]) = _
    rw [countStatus_append, Gate.period_set_countStatus]
    rfl
  · rw [hfan]
    have h1 := Fan.percon_set_countStatus t RawIn.pynone
    cases hpc : Fan.percon_set t RawIn.pynone with
    | mk s5 err =>
      rw [hpc] at h1
      cases err with
      | some e => simpa using h1
      | none =>
        have h2 := Fan.percoff_set_countStatus s5 RawIn.pynone
        show countStatus (Fan.percoff_set s5 RawIn.pynone).1.published = _
        rw [h2]
        simpa using h1

end IotGate
